import Mathlib

/-!
Verification development for the AI-Ops-Assistant pipeline
(planner / executor / verifier agents and the shared LLM client).

The Python source is shallowly embedded:
* Python values flowing through plan/result dictionaries are modelled by
  the inductive `PyVal` (JSON-style values; Python `int`/`float` are
  collapsed into exact rationals, IEEE artefacts are outside the model).
* Stateful loops become structural recursion; functions that can raise
  return `Except String _`; external effects (tool network calls, the
  LLM provider, `time.sleep`) are modelled as oracles passed in as
  arguments, with sleeps recorded as an explicit list of delays.
-/

set_option autoImplicit false

namespace AiOps

/-- Shallow model of the dynamically-typed Python values that flow
through the agents' dictionaries (`None`, booleans, numbers, strings,
lists, string-keyed dicts).  Dicts are association lists assumed to have
unique keys, as produced by `json.loads`.  Numbers are exact rationals:
Python's `int`/`float` distinction and IEEE rounding are not modelled
(no claim depends on them). -/
inductive PyVal where
  | none
  | bool (b : Bool)
  | num (q : ℚ)
  | str (s : String)
  | list (xs : List PyVal)
  | dict (kvs : List (String × PyVal))

/-- Python truthiness (`bool(x)`): `None`, `False`, `0`, `""`, `[]` and
`{}` are falsy, everything else is truthy. -/
def truthy : PyVal → Bool
  | .none => false
  | .bool b => b
  | .num q => decide (q ≠ 0)
  | .str s => decide (s ≠ "")
  | .list xs => !xs.isEmpty
  | .dict kvs => !kvs.isEmpty

/-- Python `d[k]` / `k in d` lookup on a dict (first matching key). -/
def dlookup (kvs : List (String × PyVal)) (k : String) : Option PyVal :=
  (kvs.find? (fun kv => kv.1 == k)).map (·.2)

/-- Python `d.get(k, default)`. -/
def dget (kvs : List (String × PyVal)) (k : String) (default : PyVal) : PyVal :=
  (dlookup kvs k).getD default

/-- Python `==` between a value and a string literal: only equal strings
compare equal (no other built-in type equals a `str`). -/
def pyEqStr (v : PyVal) (s : String) : Bool :=
  match v with
  | .str t => t == s
  | _ => false

/-- Python `==` between a value and an `int` literal `n`: numbers compare
by value and `bool` is a numeric subtype (`True == 1`); no other type
equals an `int`. -/
def pyEqInt (v : PyVal) (n : Nat) : Bool :=
  match v with
  | .num q => decide (q = (n : ℚ))
  | .bool b => decide ((if b then 1 else 0) = n)
  | _ => false

/-- Numeric view used by Python comparison operators: `int`/`float`
values and `bool` (as 0/1) are comparable, nothing else is. -/
def pyNumQ : PyVal → Option ℚ
  | .num q => some q
  | .bool b => some (if b then 1 else 0)
  | _ => Option.none

/-- ASCII lower-casing of one character (the inputs exercised by the
source are ASCII, so this matches Python `str.lower`). -/
def lowerChar (c : Char) : Char :=
  if 'A' ≤ c ∧ c ≤ 'Z' then Char.ofNat (c.toNat + 32) else c

/-- ASCII `str.lower`. -/
def lowerStr (s : String) : String :=
  String.mk (s.data.map lowerChar)

/-- ASCII upper-casing of one character (matches Python `str.upper` on
the ASCII status strings it is applied to). -/
def upperChar (c : Char) : Char :=
  if 'a' ≤ c ∧ c ≤ 'z' then Char.ofNat (c.toNat - 32) else c

/-- ASCII `str.upper`. -/
def upperStr (s : String) : String :=
  String.mk (s.data.map upperChar)

/-- Contiguous-sublist test on character lists (Python `needle in hay`
substring containment). -/
def listInfix (needle : List Char) : List Char → Bool
  | [] => needle.isEmpty
  | c :: t => needle.isPrefixOf (c :: t) || listInfix needle t

/-- Python substring containment `needle in hay`. -/
def strContains (hay needle : String) : Bool :=
  listInfix needle.data hay.data

/-- Exact decimal rendering of a rational number, used for Python
`str(number)`.  Integers print without a fractional part (matching
Python `int`); rationals with a terminating decimal expansion print as
decimals (matching the exact floats such as `0.5` used in the source).
Non-terminating expansions cannot arise from binary floats and fall back
to fraction notation. -/
def ratToDecimal (q : ℚ) : String :=
  if q.den = 1 then toString q.num
  else
    let sign := if q.num < 0 then "-" else ""
    let n := q.num.natAbs
    match (List.range 64).find? (fun j => 10 ^ (j + 1) % q.den = 0) with
    | some j =>
      let k := j + 1
      let scaled := n * (10 ^ k / q.den)
      let ip := scaled / 10 ^ k
      let fr := scaled % 10 ^ k
      let fs := toString fr
      let pad := String.mk (List.replicate (k - fs.length) '0')
      sign ++ toString ip ++ "." ++ pad ++ fs
    | Option.none => sign ++ toString n ++ "/" ++ toString q.den

mutual

/-- Python `repr` on the modelled value fragment (string quoting with
single quotes; escape sequences inside strings are not needed by any
value the source produces and are not modelled). -/
def pyRepr : PyVal → String
  | .none => "None"
  | .bool b => if b then "True" else "False"
  | .num q => ratToDecimal q
  | .str s => "\x27" ++ s ++ "\x27"
  | .list xs => "[" ++ String.intercalate ", " (pyReprList xs) ++ "]"
  | .dict kvs => "\x7b" ++ String.intercalate ", " (pyReprPairs kvs) ++ "\x7d"

/-- Renders each element of a list with `pyRepr`. -/
def pyReprList : List PyVal → List String
  | [] => []
  | v :: vs => pyRepr v :: pyReprList vs

/-- Renders each key/value pair of a dict with `pyRepr`. -/
def pyReprPairs : List (String × PyVal) → List String
  | [] => []
  | (k, v) :: kvs => ("\x27" ++ k ++ "\x27: " ++ pyRepr v) :: pyReprPairs kvs

end

/-- Python `str(x)`: strings render as themselves, every other value as
its `repr` (for the container types here `str` and `repr` agree). -/
def pyStr : PyVal → String
  | .str s => s
  | v => pyRepr v

/-! ## Planner agent (`agents/planner.py`) -/

/-- Keyword list of `PlannerAgent._detect_comparison_intent`
(`comparison_keywords` in the source), including the bare conjunctions
`" and "` / `" or "`. -/
def comparison_keywords : List String :=
  ["compare", "comparison", "vs", "versus", "difference between",
   "differences between", "which is better", "better than", "contrast",
   " and ", " or "]

/-- `PlannerAgent._detect_comparison_intent`: lower-case the query, flag
it if any comparison keyword occurs as a substring, otherwise flag it if
it contains a comma together with `" and "` or `" or "`. -/
def detect_comparison_intent (user_query : String) : Bool :=
  let query_lower := lowerStr user_query
  comparison_keywords.any (fun k => strContains query_lower k) ||
    (strContains query_lower "," &&
      (strContains query_lower " and " || strContains query_lower " or "))

/-- `PLAN_SCHEMA["required_fields"]`. -/
def required_fields : List String := ["task_description", "intent", "steps"]

/-- `PLAN_SCHEMA["step_required_fields"]`. -/
def step_required_fields : List String :=
  ["step_number", "action", "tool", "parameters", "expected_output"]

/-- `PLAN_SCHEMA["valid_intents"]`. -/
def valid_intents : List String := ["search", "compare", "summarize", "mixed"]

/-- `PLAN_SCHEMA["valid_tools"]`. -/
def valid_tools : List String := ["github", "weather", "wikipedia"]

/-- Per-step body of the loop in `PlannerAgent._validate_plan`, with the
1-based expected step number `i`: the step must contain every required
field, its `step_number` must equal `i`, its `tool` must be one of the
known tools, and its `parameters` must be a dict.  A non-dict step makes
`field not in step` / `step.get` raise (TypeError / AttributeError),
which the surrounding `try` converts to a failed validation. -/
def validate_step (i : Nat) (step : PyVal) : Bool :=
  match step with
  | .dict skvs =>
    step_required_fields.all (fun f => (dlookup skvs f).isSome) &&
    pyEqInt (dget skvs "step_number" .none) i &&
    valid_tools.any (fun t => pyEqStr (dget skvs "tool" .none) t) &&
    (match dget skvs "parameters" .none with | .dict _ => true | _ => false)
  | _ => false

/-- Runs `validate_step` over the steps list with 1-based numbering. -/
def validate_steps : List PyVal → Nat → Bool
  | [], _ => true
  | s :: rest, i => validate_step i s && validate_steps rest (i + 1)

/-- `PlannerAgent._validate_plan` on the raw JSON value returned by the
LLM.  Non-dict plans always fail: membership tests or `.get` raise and
the enclosing `try` returns `False`.  The trailing `comparison_mode` /
`entities` consistency check only logs a warning and never affects the
result, so it is omitted. -/
def validate_plan (plan : PyVal) : Bool :=
  match plan with
  | .dict kvs =>
    if !(required_fields.all (fun f => (dlookup kvs f).isSome)) then false
    else if !(valid_intents.any (fun s => pyEqStr (dget kvs "intent" .none) s)) then false
    else
      let steps := dget kvs "steps" (.list [])
      if !truthy steps then false
      else
        match steps with
        | .list ss => validate_steps ss 1
        | _ => false
  | _ => false

/-! ## Executor agent (`agents/executor.py`)

External tool calls are modelled by an oracle `Nat → Except String PyVal`
giving the outcome of the n-th invocation of the step's tool method
(`Except.error` carries `str(e)` of the raised exception).  `time.sleep`
is modelled by recording the slept delays in an output list. -/

/-- Fields of a plan step that `ExecutorAgent` reads
(`step.get("step_number", 0)` and `step.get("tool", "")`; `action`,
`parameters` and `expected_output` only select which external tool
method runs and are absorbed into the tool oracle). -/
structure Step where
  step_number : Int
  tool : String

/-- Per-step result dictionary built by `ExecutorAgent._execute_step`
(and the unexpected-error branch of `execute_plan`).  The wall-clock
`execution_time` field is environmental and not modelled. -/
structure StepResult where
  step_number : Int
  status : String
  data : PyVal
  error : Option String

/-- Execution-result dictionary returned by `execute_plan`.  The
timestamped `execution_log` strings are observability-only and not
modelled. -/
structure ExecutionResult where
  success : Bool
  steps_completed : Nat
  steps_failed : Nat
  results : List StepResult

/-- Transient-error keyword list of `_retry_with_backoff`. -/
def transient_keywords : List String :=
  ["timeout", "rate limit", "429", "503", "502", "connection", "network"]

/-- Transient check of `_retry_with_backoff`: `str(e).lower()` contains
one of the transient keywords. -/
def is_transient (err : String) : Bool :=
  transient_keywords.any (fun k => strContains (lowerStr err) k)

/-- Loop body of `ExecutorAgent._retry_with_backoff`.  `attempt` is the
0-based attempt index, `remaining` the number of retries still allowed
(`max_retries - attempt`), `delay` the current backoff delay.  Returns
the function's result (or the raised error) together with the list of
`time.sleep` delays performed.  A failure is re-raised immediately when
it is not transient or no retries remain; otherwise the wrapper sleeps
`delay` and retries with `delay * backoff_factor`. -/
def retry_aux (f : Nat → Except String PyVal) (backoff_factor : ℚ)
    (attempt : Nat) (remaining : Nat) (delay : ℚ) :
    Except String PyVal × List ℚ :=
  match f attempt with
  | .ok v => (.ok v, [])
  | .error e =>
    match remaining with
    | 0 => (.error e, [])
    | r + 1 =>
      if is_transient e then
        let rest := retry_aux f backoff_factor (attempt + 1) r (delay * backoff_factor)
        (rest.1, delay :: rest.2)
      else (.error e, [])

/-- `ExecutorAgent._retry_with_backoff(func, max_retries, initial_delay,
backoff_factor)`. -/
def retry_with_backoff (f : Nat → Except String PyVal) (max_retries : Nat)
    (initial_delay backoff_factor : ℚ) : Except String PyVal × List ℚ :=
  retry_aux f backoff_factor 0 max_retries initial_delay

/-- `ExecutorAgent._execute_step`: a step whose tool name is not
registered yields a failed result without calling anything; otherwise
the tool method runs under the retry wrapper (defaults: 3 retries,
initial delay 1.0, factor 2.0) and any raised error is caught into a
failed result. -/
def execute_step (tools : List String) (attempts : Nat → Except String PyVal)
    (step : Step) : StepResult :=
  if !(tools.contains step.tool) then
    { step_number := step.step_number, status := "failed", data := .none,
      error := some ("Tool \x27" ++ step.tool ++ "\x27 not found in available tools") }
  else
    match (retry_with_backoff attempts 3 1 2).1 with
    | .ok d =>
      { step_number := step.step_number, status := "success", data := d, error := Option.none }
    | .error e =>
      { step_number := step.step_number, status := "failed", data := .none, error := some e }

/-- Environment of one loop iteration of `execute_plan`: either
`_execute_step` runs (with the given tool-call oracle), or an unexpected
exception with message `msg` escapes it and is caught by the `except`
branch of `execute_plan`. -/
inductive StepEnv where
  | runs (attempts : Nat → Except String PyVal)
  | raises (msg : String)

/-- One iteration of the step loop in `execute_plan`: the `except`
branch converts an unexpected exception into a failed result tagged
"Unexpected error". -/
def run_one_step (tools : List String) (e : StepEnv) (step : Step) : StepResult :=
  match e with
  | .runs attempts => execute_step tools attempts step
  | .raises msg =>
    { step_number := step.step_number, status := "failed", data := .none,
      error := some ("Unexpected error: " ++ msg) }

/-- The step loop of `execute_plan`, with `i` the 0-based index into the
per-step environment. -/
def run_steps (tools : List String) (env : Nat → StepEnv) :
    Nat → List Step → List StepResult
  | _, [] => []
  | i, s :: rest => run_one_step tools (env i) s :: run_steps tools env (i + 1) rest

/-- Tallying of `steps_completed` / `steps_failed` in `execute_plan`: a
result with status `"success"` increments the completed count, any other
status increments the failed count. -/
def tally : List StepResult → Nat × Nat
  | [] => (0, 0)
  | r :: rest =>
    let t := tally rest
    if r.status = "success" then (t.1 + 1, t.2) else (t.1, t.2 + 1)

/-- `ExecutorAgent.execute_plan`: rejects an empty steps list
(`ValueError`), then runs every step, tallies the per-step statuses and
sets `success = steps_completed > 0`.  The function is total on
non-empty plans — every per-step exception is absorbed into a failed
`StepResult`, so no error propagates out of the loop. -/
def execute_plan (tools : List String) (env : Nat → StepEnv) (steps : List Step) :
    Except String ExecutionResult :=
  if steps.isEmpty then .error "Plan must contain at least one step"
  else
    let results := run_steps tools env 0 steps
    let t := tally results
    .ok { success := decide (0 < t.1), steps_completed := t.1,
          steps_failed := t.2, results := results }

/-! ## Verifier agent (`agents/verifier.py`)

The LLM quality pass (`_verify_with_llm`) is external: it is modelled by
an `Except String PyVal` oracle carrying either the parsed JSON value
returned by `generate_json_completion` or the raised error. -/

/-- Plan view used by `VerifierAgent` (it only reads
`plan.get("steps", [])` for its length). -/
structure PlanT where
  steps : List Step

/-- Verification-result dictionary returned by `verify_results`.  The
LLM-provided fields keep Python's dynamic typing (`PyVal`), since the
parsed JSON object may carry values of any shape. -/
structure VerificationResult where
  is_complete : Bool
  is_correct : Bool
  confidence_score : PyVal
  issues : List PyVal
  formatted_output : PyVal
  summary : PyVal
  recommendations : PyVal

/-- `VerifierAgent._check_completeness`: all plan steps completed. -/
def check_completeness (plan : PlanT) (er : ExecutionResult) : Bool :=
  er.steps_completed == plan.steps.length

/-- Anomaly scan of one step result inside
`VerifierAgent._check_for_anomalies`.  Non-success steps are skipped;
`if not data: continue` then skips every falsy `data` value — including
the empty list, so the empty-result-set branch below it is unreachable.
A non-numeric, non-`None` `temperature` value makes the Python
comparison raise a `TypeError` that propagates out of `verify_results`;
that is the `Except.error` case. -/
def step_anomalies (r : StepResult) : Except String (List String) :=
  if r.status ≠ "success" then .ok []
  else if !truthy r.data then .ok []
  else do
    let tempIssues ←
      (match r.data with
      | .dict kvs =>
        match dlookup kvs "temperature" with
        | some v =>
          match v with
          | .none => Except.ok []
          | _ =>
            match pyNumQ v with
            | some q =>
              if q < -100 ∨ 60 < q then
                Except.ok ["Unusual temperature value: " ++ pyStr v ++ "°C"]
              else Except.ok []
            | Option.none =>
              Except.error "TypeError: unsupported comparison for temperature value"
        | Option.none => Except.ok []
      | _ => Except.ok [])
    let emptyIssues :=
      match r.data with
      | .list xs => if xs.length = 0 then ["Empty result set returned"] else []
      | _ => []
    .ok (tempIssues ++ emptyIssues)

/-- Folds `step_anomalies` over the results list, stopping at the first
raised error, in result order. -/
def anomalies_list : List StepResult → Except String (List String)
  | [] => .ok []
  | r :: rest => do
    let a ← step_anomalies r
    let b ← anomalies_list rest
    .ok (a ++ b)

/-- `VerifierAgent._check_for_anomalies`. -/
def check_for_anomalies (er : ExecutionResult) : Except String (List String) :=
  anomalies_list er.results

/-- Python iteration of a value, as used by `issues.extend(llm_issues)`:
lists yield their elements, strings their one-character substrings,
dicts their keys; other values raise `TypeError` (`Option.none`). -/
def pyIter : PyVal → Option (List PyVal)
  | .list xs => some xs
  | .str s => some (s.data.map (fun c => PyVal.str (String.mk [c])))
  | .dict kvs => some (kvs.map (fun kv => PyVal.str kv.1))
  | _ => Option.none

/-- The summary string assigned in the fallback branch of
`verify_results`. -/
def fallback_summary : String :=
  "Verification completed with basic formatting (LLM unavailable)"

/-- `VerifierAgent._format_item`: a dict renders as its `name`, `title`
or `city (temperature°C)` field, otherwise as a field-count tag; other
values render as `str(item)`.  The `name`/`title` branches return the
raw field value, which need not be a string. -/
def format_item (item : PyVal) : PyVal :=
  match item with
  | .dict kvs =>
    match dlookup kvs "name" with
    | some v => v
    | Option.none =>
      match dlookup kvs "title" with
      | some v => v
      | Option.none =>
        match dlookup kvs "city" with
        | some c =>
          .str (pyStr c ++ " (" ++ pyStr (dget kvs "temperature" (.str "N/A")) ++ "°C)")
        | Option.none => .str ("Dict with " ++ toString kvs.length ++ " fields")
  | _ => .str (pyStr item)

/-- `VerifierAgent._format_data`: lists render with an item count and
the Python `repr` of the per-item summaries (up to the first three);
dicts defer to `_format_item` (whose result need not be a string);
anything else renders as `str(data)`. -/
def format_data (data : PyVal) : PyVal :=
  match data with
  | .list xs =>
    if xs.length = 0 then .str "Empty list"
    else if xs.length ≤ 3 then
      .str (toString xs.length ++ " items: " ++ pyStr (.list (xs.map format_item)))
    else
      .str (toString xs.length ++ " items (showing first 3): " ++
        pyStr (.list ((xs.take 3).map format_item)))
  | .dict _ => format_item data
  | _ => .str (pyStr data)

/-- Per-result block of `VerifierAgent._format_for_display`.  The
executor always populates the `error` key, so the dict-absent default
`"Unknown error"` is unreachable; a `None` error value renders as
Python prints `None`. -/
def format_result_block (r : StepResult) : List String :=
  let header := "Step " ++ toString r.step_number ++ ": " ++ upperStr r.status
  let body :=
    if r.status = "success" then
      if truthy r.data then ["  Data: " ++ pyStr (format_data r.data)] else []
    else
      ["  Error: " ++ (match r.error with | some e => e | Option.none => "None")]
  header :: body ++ [""]

/-- `VerifierAgent._format_for_display`: the deterministic fallback
formatter (fixed-layout textual report). -/
def format_for_display (er : ExecutionResult) : String :=
  let sep := String.mk (List.replicate 60 '=')
  let head :=
    [sep, "EXECUTION RESULTS", sep,
     (if er.success then "✓ Overall Status: SUCCESS" else "✗ Overall Status: FAILED"),
     "Steps Completed: " ++ toString er.steps_completed,
     "Steps Failed: " ++ toString er.steps_failed,
     ""]
  String.intercalate "\n" (head ++ (er.results.map format_result_block).flatten ++ [sep])

/-- The `try`/`except` block of `verify_results` around the LLM quality
pass: on success the four output fields are read from the parsed JSON
object with their defaults and the LLM-reported issues are appended; a
gateway/parse error, a non-dict JSON value (whose `.get` raises
`AttributeError`) or a non-iterable `issues` value (whose `extend`
raises `TypeError`) all fall into the `except` branch, which keeps the
deterministic issues and substitutes the fallback formatting.  Returns
`(issues, formatted_output, summary, recommendations,
confidence_score)`. -/
def llm_branch (er : ExecutionResult) (issues : List PyVal)
    (llm : Except String PyVal) :
    List PyVal × PyVal × PyVal × PyVal × PyVal :=
  let fallback :=
    (issues, PyVal.str (format_for_display er), PyVal.str fallback_summary,
     PyVal.list [], PyVal.num (mkRat 1 2))
  match llm with
  | .error _ => fallback
  | .ok v =>
    match v with
    | .dict kvs =>
      let fo := dget kvs "formatted_output" (.str "")
      let sm := dget kvs "summary" (.str "")
      let rc := dget kvs "recommendations" (.list [])
      let cs := dget kvs "confidence_score" (.num (mkRat 1 2))
      match pyIter (dget kvs "issues" (.list [])) with
      | some ext => (issues ++ ext, fo, sm, rc, cs)
      | Option.none => fallback
    | _ => fallback

/-- `VerifierAgent.verify_results`: completeness check, deterministic
issue collection (failed-step count, incompleteness, anomaly scan), the
LLM quality pass with its fallback, and finally
`is_correct = len(issues) == 0 and execution_result.get("success", False)`.
The empty-dict argument guards reject values that the typed embedding
cannot represent; an anomaly-scan `TypeError` propagates as
`Except.error`. -/
def verify_results (plan : PlanT) (er : ExecutionResult)
    (llm : Except String PyVal) : Except String VerificationResult := do
  let is_complete := check_completeness plan er
  let failedIssues : List PyVal :=
    if 0 < er.steps_failed then
      [.str (toString er.steps_failed ++ " step(s) failed during execution")]
    else []
  let completeIssues : List PyVal :=
    if !is_complete then
      [.str ("Only " ++ toString er.steps_completed ++ " of " ++
        toString plan.steps.length ++ " steps completed successfully")]
    else []
  let anoms ← check_for_anomalies er
  let issues1 := failedIssues ++ completeIssues ++ anoms.map PyVal.str
  let out := llm_branch er issues1 llm
  let issues := out.1
  .ok { is_complete := is_complete,
        is_correct := issues.isEmpty && er.success,
        confidence_score := out.2.2.2.2,
        issues := issues,
        formatted_output := out.2.1,
        summary := out.2.2.1,
        recommendations := out.2.2.2.1 }

/-! ## LLM client (`llm/llm_client.py`)

Provider calls are modelled by an oracle `Nat → Except GwError String`
giving the outcome of the attempt with that 0-based index. -/

/-- Classification of the exception raised by one provider call in
`generate_completion`: the typed OpenAI errors the `isinstance` chain
recognises (`RateLimitError`, `APIConnectionError`, `APIError` with an
optional `status_code`), or any other exception (including everything a
non-OpenAI provider raises). -/
inductive GwError where
  | rateLimit (msg : String)
  | connection (msg : String)
  | api (status : Option Int) (msg : String)
  | other (msg : String)

/-- Text of the exception (`str(e)`), used by the generic keyword
check. -/
def gwErrMsg : GwError → String
  | .rateLimit m => m
  | .connection m => m
  | .api _ m => m
  | .other m => m

/-- Outcome of the typed `isinstance` chain under
`provider == "openai" and OPENAI_AVAILABLE`: `some true` means
retry-with-backoff (rate limit, connection error, 5xx `APIError`),
`some false` means raise immediately (any other `APIError`), `none`
means fall through to the generic keyword check. -/
def typedClass : GwError → Option Bool
  | .rateLimit _ => some true
  | .connection _ => some true
  | .api (some st) _ => if 500 ≤ st ∧ st < 600 then some true else some false
  | .api Option.none _ => some false
  | .other _ => Option.none

/-- Keyword list of the generic retryable-error check in
`generate_completion`. -/
def gateway_retryable_keywords : List String :=
  ["rate limit", "quota", "429", "503", "timeout", "connection"]

/-- Generic retryable-error check: `str(e).lower()` contains one of the
gateway keywords. -/
def is_retryable_generic (e : GwError) : Bool :=
  gateway_retryable_keywords.any (fun k => strContains (lowerStr (gwErrMsg e)) k)

/-- `LLMClient._calculate_backoff`: `min(2 ** attempt, 60)` seconds. -/
def calculate_backoff (attempt : Nat) : Nat :=
  min (2 ^ attempt) 60

/-- Termination of `generate_completion`: a completion string, the
underlying exception re-raised, or the terminal
`Exception("Failed after … attempts. Last error: …")` raised after the
loop, carrying the last stored underlying error (`none` only when the
loop never ran). -/
inductive GenOutcome where
  | ok (s : String)
  | raised (e : GwError)
  | exhausted (last : Option GwError)

/-- Loop body of `LLMClient.generate_completion`.  `attempt` is the
0-based loop index, `remaining` the number of loop iterations left
(`max_retries - attempt`), `last` the stored `last_error`.  Typed
transient errors (under the OpenAI provider) always sleep
`calculate_backoff attempt` and continue — even on the final iteration —
so exhausting them falls off the loop into the terminal wrapper error;
typed non-retryable `APIError`s re-raise at once; every other error
takes the generic keyword check, which re-raises unless the error is
retryable and at least one of the `max_retries` iterations remains
after this one (`attempt < max_retries - 1`). -/
def gen_aux (provider : String) (openai_available : Bool) (max_retries : Nat)
    (oracle : Nat → Except GwError String) (attempt : Nat) (remaining : Nat)
    (last : Option GwError) : GenOutcome × List Nat :=
  match remaining with
  | 0 => (.exhausted last, [])
  | r + 1 =>
    match oracle attempt with
    | .ok s => (.ok s, [])
    | .error e =>
      if provider = "openai" ∧ openai_available then
        match typedClass e with
        | some true =>
          let rest := gen_aux provider openai_available max_retries oracle
            (attempt + 1) r (some e)
          (rest.1, calculate_backoff attempt :: rest.2)
        | some false => (.raised e, [])
        | Option.none =>
          if is_retryable_generic e ∧ attempt < max_retries - 1 then
            let rest := gen_aux provider openai_available max_retries oracle
              (attempt + 1) r (some e)
            (rest.1, calculate_backoff attempt :: rest.2)
          else (.raised e, [])
      else
        if is_retryable_generic e ∧ attempt < max_retries - 1 then
          let rest := gen_aux provider openai_available max_retries oracle
            (attempt + 1) r (some e)
          (rest.1, calculate_backoff attempt :: rest.2)
        else (.raised e, [])

/-- `LLMClient.generate_completion` (after the empty-messages guard):
runs `for attempt in range(max_retries)` from attempt 0 with no stored
last error, returning the outcome and the list of backoff sleeps. -/
def generate_completion (provider : String) (openai_available : Bool)
    (max_retries : Nat) (oracle : Nat → Except GwError String) :
    GenOutcome × List Nat :=
  gen_aux provider openai_available max_retries oracle 0 max_retries Option.none

/-! ## Executor lemmas and claims C1, C2, C10 -/

theorem tally_fst_add_snd (rs : List StepResult) :
    (tally rs).1 + (tally rs).2 = rs.length := by
  induction rs with
  | nil => rfl
  | cons r rest ih =>
    simp only [tally, List.length_cons]
    split <;> omega

theorem run_steps_length (tools : List String) (env : Nat → StepEnv) :
    ∀ (i : Nat) (ss : List Step), (run_steps tools env i ss).length = ss.length := by
  intro i ss
  induction ss generalizing i with
  | nil => rfl
  | cons s rest ih => simp [run_steps, ih]

theorem run_one_step_step_number (tools : List String) (e : StepEnv) (s : Step) :
    (run_one_step tools e s).step_number = s.step_number := by
  cases e with
  | raises m => rfl
  | runs att =>
    simp only [run_one_step, execute_step]
    split
    · rfl
    · split <;> rfl

theorem run_steps_map_step_number (tools : List String) (env : Nat → StepEnv) :
    ∀ (i : Nat) (ss : List Step),
      (run_steps tools env i ss).map StepResult.step_number = ss.map Step.step_number := by
  intro i ss
  induction ss generalizing i with
  | nil => rfl
  | cons s rest ih =>
    simp [run_steps, run_one_step_step_number, ih]

/-- C1: for every plan accepted by `execute_plan`, the resulting
`ExecutionResult`'s `success` field is true if and only if
`steps_completed > 0` (at-least-one-success semantics: a plan with some
failed steps and at least one successful step still has `success = true`,
and a plan where every step failed has `success = false`). -/
theorem execute_plan_success_iff_some_completed
    (tools : List String) (env : Nat → StepEnv) (steps : List Step)
    (r : ExecutionResult) (h : execute_plan tools env steps = .ok r) :
    r.success = true ↔ 0 < r.steps_completed := by
  unfold execute_plan at h
  split at h
  · exact absurd h (by simp)
  · injection h with h
    subst h
    simp

/-- Demo tool registry matching the executor's expected keys. -/
def tools_demo : List String := ["github", "weather", "wikipedia"]

/-- Two-step demo plan. -/
def steps_demo : List Step :=
  [{ step_number := 1, tool := "weather" }, { step_number := 2, tool := "weather" }]

/-- Demo environment: step 0's tool call succeeds at once, step 1's tool
call raises a non-transient error. -/
def env_demo : Nat → StepEnv := fun i =>
  if i = 0 then .runs (fun _ => Except.ok (.str "data"))
  else .runs (fun _ => Except.error "boom")

/-- Execution result produced by the demo plan. -/
def er_demo : ExecutionResult :=
  { success := true, steps_completed := 1, steps_failed := 1,
    results :=
      [{ step_number := 1, status := "success", data := .str "data", error := Option.none },
       { step_number := 2, status := "failed", data := .none, error := some "boom" }] }

theorem execute_plan_success_iff_some_completed_witness :
    er_demo.success = true ↔ 0 < er_demo.steps_completed :=
  execute_plan_success_iff_some_completed tools_demo env_demo steps_demo er_demo (by rfl)

/-- C2: for every plan accepted by `execute_plan` (non-empty steps
list), the returned `ExecutionResult` satisfies
`steps_completed + steps_failed = len(plan.steps)`: every step is
tallied exactly once as either completed or failed, regardless of which
branch (normal failure, unknown tool, or unexpected exception) handles
it. -/
theorem execute_plan_tally_partition
    (tools : List String) (env : Nat → StepEnv) (steps : List Step)
    (r : ExecutionResult) (h : execute_plan tools env steps = .ok r) :
    r.steps_completed + r.steps_failed = steps.length := by
  unfold execute_plan at h
  split at h
  · exact absurd h (by simp)
  · injection h with h
    subst h
    simpa [tally_fst_add_snd] using run_steps_length tools env 0 steps

/-- Mixed-branch demo environment: step 0 succeeds, step 1 raises an
unexpected exception, step 2 targets an unknown tool. -/
def env_mixed : Nat → StepEnv := fun i =>
  if i = 0 then .runs (fun _ => Except.ok (.str "data"))
  else if i = 1 then .raises "surprise"
  else .runs (fun _ => Except.error "never called")

/-- Three-step demo plan whose last step names an unknown tool. -/
def steps_mixed : List Step :=
  [{ step_number := 1, tool := "weather" }, { step_number := 2, tool := "github" },
   { step_number := 3, tool := "nonsense" }]

/-- Execution result produced by the mixed demo plan. -/
def er_mixed : ExecutionResult :=
  { success := true, steps_completed := 1, steps_failed := 2,
    results :=
      [{ step_number := 1, status := "success", data := .str "data", error := Option.none },
       { step_number := 2, status := "failed", data := .none,
         error := some "Unexpected error: surprise" },
       { step_number := 3, status := "failed", data := .none,
         error := some "Tool \x27nonsense\x27 not found in available tools" }] }

theorem execute_plan_tally_partition_witness :
    er_mixed.steps_completed + er_mixed.steps_failed = steps_mixed.length :=
  execute_plan_tally_partition tools_demo env_mixed steps_mixed er_mixed (by rfl)

/-- C10: for every plan accepted by `execute_plan`, the returned results
sequence contains exactly one `StepResult` per plan step, in the same
order as the plan's steps, each carrying that step's `step_number`.  (No
exception raised while handling an individual step escapes
`execute_plan`: the embedding of the step loop is a total function, and
unexpected exceptions and unknown tool names are absorbed into failed
step results by `run_one_step` / `execute_step`.) -/
theorem execute_plan_results_aligned
    (tools : List String) (env : Nat → StepEnv) (steps : List Step)
    (r : ExecutionResult) (h : execute_plan tools env steps = .ok r) :
    r.results.length = steps.length ∧
      r.results.map StepResult.step_number = steps.map Step.step_number := by
  unfold execute_plan at h
  split at h
  · exact absurd h (by simp)
  · injection h with h
    subst h
    refine ⟨run_steps_length tools env 0 steps, ?_⟩
    exact run_steps_map_step_number tools env 0 steps

theorem execute_plan_results_aligned_witness :
    er_mixed.results.length = steps_mixed.length ∧
      er_mixed.results.map StepResult.step_number = steps_mixed.map Step.step_number :=
  execute_plan_results_aligned tools_demo env_mixed steps_mixed er_mixed (by rfl)

/-! ## Claim C6: the step-level retry wrapper -/

/-- C6: the step-level retry wrapper `_retry_with_backoff` (at its
default parameters, as invoked by `_execute_step`): a function that
fails with transient-keyword errors on the first two calls and succeeds
on the third returns the success value after exactly two sleeps of 1.0s
then 2.0s; a function whose error text matches no transient keyword
raises that error on the first attempt with zero sleeps; and retries are
capped at 3 (so 4 total attempts), after which the last error surfaces
as the terminal error, with sleeps 1.0s, 2.0s, 4.0s. -/
theorem retry_with_backoff_behavior
    (f g w : Nat → Except String PyVal) (v : PyVal)
    (e0 e1 d a0 a1 a2 a3 : String) :
    (f 0 = .error e0 → is_transient e0 = true →
      f 1 = .error e1 → is_transient e1 = true →
      f 2 = .ok v →
      retry_with_backoff f 3 1 2 = (.ok v, [1, 2])) ∧
    (g 0 = .error d → is_transient d = false →
      retry_with_backoff g 3 1 2 = (.error d, [])) ∧
    (w 0 = .error a0 → is_transient a0 = true →
      w 1 = .error a1 → is_transient a1 = true →
      w 2 = .error a2 → is_transient a2 = true →
      w 3 = .error a3 → is_transient a3 = true →
      retry_with_backoff w 3 1 2 = (.error a3, [1, 2, 4])) := by
  refine ⟨?_, ?_, ?_⟩
  · intro h0 t0 h1 t1 h2
    simp [retry_with_backoff, retry_aux, h0, t0, h1, t1, h2]
  · intro h0 t0
    simp [retry_with_backoff, retry_aux, h0, t0]
  · intro h0 t0 h1 t1 h2 t2 h3 t3
    simp [retry_with_backoff, retry_aux, h0, t0, h1, t1, h2, t2, h3, t3]
    norm_num

/-- Tool-call oracle failing twice with a transient error, then
succeeding. -/
def retryF : Nat → Except String PyVal := fun n =>
  if n < 2 then .error "connection timeout" else .ok (.str "ok")

/-- Tool-call oracle failing with a non-transient error. -/
def retryG : Nat → Except String PyVal := fun _ => .error "bad request"

/-- Tool-call oracle failing every time with a transient error. -/
def retryW : Nat → Except String PyVal := fun _ => .error "network down"

theorem retry_with_backoff_behavior_witness :
    retry_with_backoff retryF 3 1 2 = (.ok (.str "ok"), [1, 2]) ∧
    retry_with_backoff retryG 3 1 2 = (.error "bad request", []) ∧
    retry_with_backoff retryW 3 1 2 = (.error "network down", [1, 2, 4]) := by
  have h := retry_with_backoff_behavior retryF retryG retryW (.str "ok")
    "connection timeout" "connection timeout" "bad request"
    "network down" "network down" "network down" "network down"
  exact ⟨h.1 rfl (by decide) rfl (by decide) rfl,
         h.2.1 rfl (by decide),
         h.2.2 rfl (by decide) rfl (by decide) rfl (by decide) rfl (by decide)⟩

/-! ## Claim C4: comparison-intent detection -/

/-- Comparison-intent predicate as the claim states it: the flag is true
iff the query contains a keyword from the fixed set `{compare, vs,
versus, difference between, which is better, better than, contrast}` or
contains both a comma and a conjunction (`" and "` / `" or "`).  This
definition follows the claim's words, for comparison with the
source-derived `detect_comparison_intent`. -/
def comparison_intent_claimed (user_query : String) : Bool :=
  let query_lower := lowerStr user_query
  ["compare", "vs", "versus", "difference between", "which is better",
   "better than", "contrast"].any (fun k => strContains query_lower k) ||
    (strContains query_lower "," &&
      (strContains query_lower " and " || strContains query_lower " or "))

/-- Counterexample to C4: the query `"weather in london and paris"`
contains `" and "` but no comma and none of the claim's listed keywords,
yet the code flags it as a comparison (the source's keyword list itself
contains `" and "` and `" or "`), so the claimed equivalence fails. -/
theorem comparison_intent_claim_counterexample :
    detect_comparison_intent "weather in london and paris" = true ∧
      comparison_intent_claimed "weather in london and paris" = false := by
  constructor <;> decide

/-- C4 (amended): the comparison-intent flag is true iff the lowercased
query contains one of the code's keywords `{compare, comparison, vs,
versus, difference between, differences between, which is better,
better than, contrast, " and ", " or "}`; the comma-plus-conjunction
clause is subsumed because `" and "` and `" or "` are themselves
keywords. -/
theorem detect_comparison_intent_eq_keyword_scan (user_query : String) :
    detect_comparison_intent user_query =
      comparison_keywords.any (fun k => strContains (lowerStr user_query) k) := by
  unfold detect_comparison_intent
  cases hA : comparison_keywords.any (fun k => strContains (lowerStr user_query) k) with
  | true => simp [hA]
  | false =>
    have hand : strContains (lowerStr user_query) " and " = false := by
      have := List.any_eq_false.mp hA " and " (by simp [comparison_keywords])
      simpa using this
    have hor : strContains (lowerStr user_query) " or " = false := by
      have := List.any_eq_false.mp hA " or " (by simp [comparison_keywords])
      simpa using this
    simp [hA, hand, hor]

/-! ## Claim C5: step numbers must be the exact run 1..N -/

/-- Specification-side view of a step that passes every per-step check
of `_validate_plan` except possibly the step-number check: a dict with
all required fields, a known tool and dict parameters. -/
def step_fields_ok (step : PyVal) : Bool :=
  match step with
  | .dict skvs =>
    step_required_fields.all (fun f => (dlookup skvs f).isSome) &&
    valid_tools.any (fun t => pyEqStr (dget skvs "tool" .none) t) &&
    (match dget skvs "parameters" .none with | .dict _ => true | _ => false)
  | _ => false

/-- The `step_number` value of a step dict. -/
def step_number_of (step : PyVal) : PyVal :=
  match step with
  | .dict skvs => dget skvs "step_number" .none
  | _ => .none

theorem validate_step_eq_number_check (i : Nat) (s : PyVal)
    (hwf : step_fields_ok s = true) :
    validate_step i s = pyEqInt (step_number_of s) i := by
  cases s with
  | dict skvs =>
    simp only [step_fields_ok, Bool.and_eq_true] at hwf
    obtain ⟨⟨hF, hT⟩, hP⟩ := hwf
    simp [validate_step, step_number_of, hF, hT, hP]
  | none => simp [step_fields_ok] at hwf
  | bool b => simp [step_fields_ok] at hwf
  | num q => simp [step_fields_ok] at hwf
  | str t => simp [step_fields_ok] at hwf
  | list xs => simp [step_fields_ok] at hwf

theorem validate_steps_iff (ss : List PyVal) :
    ∀ (k : Nat), (∀ i (h : i < ss.length), step_fields_ok (ss.get ⟨i, h⟩) = true) →
      (validate_steps ss k = true ↔
        ∀ i (h : i < ss.length),
          pyEqInt (step_number_of (ss.get ⟨i, h⟩)) (k + i) = true) := by
  induction ss with
  | nil =>
    intro k _
    simp [validate_steps]
  | cons s rest ih =>
    intro k hwf
    have hs : step_fields_ok s = true := hwf 0 (by simp)
    have hrest : ∀ i (h : i < rest.length), step_fields_ok (rest.get ⟨i, h⟩) = true := by
      intro i h
      exact hwf (i + 1) (by simpa using Nat.succ_lt_succ h)
    rw [validate_steps, Bool.and_eq_true, validate_step_eq_number_check k s hs,
      ih (k + 1) hrest]
    constructor
    · rintro ⟨h0, hr⟩ i hi
      cases i with
      | zero => simpa using h0
      | succ j =>
        have hj : j < rest.length := by simpa using Nat.lt_of_succ_lt_succ hi
        have := hr j hj
        simpa [Nat.add_assoc, Nat.add_comm 1 j] using this
    · intro hall
      refine ⟨by simpa using hall 0 (by simp), ?_⟩
      intro j hj
      have := hall (j + 1) (by simpa using Nat.succ_lt_succ hj)
      simpa [Nat.add_assoc, Nat.add_comm 1 j] using this

/-- C5: for a plan that is well-formed in every other respect (required
top-level fields present, valid intent, a non-empty steps list whose
elements each have all required fields, a known tool and dict
parameters), `_validate_plan` succeeds iff the step numbers are exactly
the sequential run `1..N` in order — any gap, out-of-order pair or
repeat makes validation fail, so `create_plan` raises its validation
error for such plans. -/
theorem validate_plan_step_numbers_iff (td intent : PyVal) (ss : List PyVal)
    (hintent : valid_intents.any (fun s => pyEqStr intent s) = true)
    (hne : ss ≠ [])
    (hwf : ∀ i (h : i < ss.length), step_fields_ok (ss.get ⟨i, h⟩) = true) :
    validate_plan (.dict [("task_description", td), ("intent", intent),
        ("steps", .list ss)]) = true ↔
      ∀ i (h : i < ss.length),
        pyEqInt (step_number_of (ss.get ⟨i, h⟩)) (i + 1) = true := by
  have hempty : ss.isEmpty = false := by
    cases ss with
    | nil => exact absurd rfl hne
    | cons a l => rfl
  rw [show validate_plan (.dict [("task_description", td), ("intent", intent),
        ("steps", .list ss)]) =
      (if !truthy (.list ss) then false else validate_steps ss 1) by
    simp [validate_plan, dlookup, dget, required_fields, List.find?, hintent]]
  simp only [truthy, hempty]
  rw [if_neg (by simp), validate_steps_iff ss 1 hwf]
  constructor
  · intro h i hi
    have := h i hi
    simpa [Nat.add_comm 1 i] using this
  · intro h i hi
    have := h i hi
    simpa [Nat.add_comm 1 i] using this

/-- Builds a well-formed weather step dict with the given step number. -/
def mk_step (n : ℚ) : PyVal :=
  .dict [("step_number", .num n), ("action", .str "fetch"),
         ("tool", .str "weather"), ("parameters", .dict [("city", .str "Paris")]),
         ("expected_output", .str "weather data")]

/-- Steps numbered `[1, 3]` (a gap). -/
def steps_gap : List PyVal := [mk_step 1, mk_step 3]

/-- Steps numbered `[1, 2]` (the exact run). -/
def steps_ok : List PyVal := [mk_step 1, mk_step 2]

theorem validate_plan_step_numbers_iff_witness :
    validate_plan (.dict [("task_description", .str "t"), ("intent", .str "search"),
        ("steps", .list steps_gap)]) = false ∧
    validate_plan (.dict [("task_description", .str "t"), ("intent", .str "search"),
        ("steps", .list steps_ok)]) = true := by
  have hgap := validate_plan_step_numbers_iff (.str "t") (.str "search") steps_gap
    (by decide) (by simp [steps_gap]) (by decide)
  have hok := validate_plan_step_numbers_iff (.str "t") (.str "search") steps_ok
    (by decide) (by simp [steps_ok]) (by decide)
  constructor
  · cases hval : validate_plan (.dict [("task_description", .str "t"),
        ("intent", .str "search"), ("steps", .list steps_gap)]) with
    | false => rfl
    | true =>
      have hseq := hgap.mp hval
      have : ¬ ∀ i (h : i < steps_gap.length),
          pyEqInt (step_number_of (steps_gap.get ⟨i, h⟩)) (i + 1) = true := by decide
      exact absurd hseq this
  · exact hok.mpr (by decide)

/-! ## Claim C3: the empty-result-set anomaly (code bug) -/

/-- Execution result whose single step succeeded with an empty list as
its data. -/
def er_empty_list : ExecutionResult :=
  { success := true, steps_completed := 1, steps_failed := 0,
    results :=
      [{ step_number := 1, status := "success", data := .list [], error := Option.none }] }

/-- One-step plan matching `er_empty_list`. -/
def plan_one_step : PlanT := { steps := [{ step_number := 1, tool := "weather" }] }

/-- C3 evaluated on the failing input: `if not data: continue` in
`_check_for_anomalies` skips every falsy data value, so a successful
step whose data is the empty list never reaches the
empty-result-set branch below it — the scan reports no anomaly, the
issues list of `verify_results` stays empty and `is_correct` is even
true, contradicting the claim (and the dead branch's own intent). -/
theorem empty_result_set_never_flagged :
    check_for_anomalies er_empty_list = .ok [] ∧
    verify_results plan_one_step er_empty_list (.error "llm down") =
      .ok { is_complete := true, is_correct := true,
            confidence_score := .num (mkRat 1 2), issues := [],
            formatted_output := .str (format_for_display er_empty_list),
            summary := .str fallback_summary, recommendations := .list [] } := by
  constructor
  · rfl
  · rfl

/-! ## Claim C7: is_correct iff no issues and overall success -/

/-- C7: for every (plan, execution, LLM-outcome) triple accepted by
`verify_results`, the returned `is_correct` is true iff the collected
issues list is empty and `execution.success` is true; consequently any
failed step, any incompleteness or any detected anomaly (each of which
adds an issue) forces `is_correct = false`. -/
theorem verify_results_is_correct_iff (plan : PlanT) (er : ExecutionResult)
    (llm : Except String PyVal) (v : VerificationResult)
    (h : verify_results plan er llm = .ok v) :
    v.is_correct = true ↔ (v.issues = [] ∧ er.success = true) := by
  unfold verify_results at h
  cases hc : check_for_anomalies er with
  | error e =>
    rw [hc] at h
    simp [Bind.bind, Except.bind] at h
  | ok anoms =>
    rw [hc] at h
    simp only [Bind.bind, Except.bind, Except.ok.injEq] at h
    subst h
    simp [Bool.and_eq_true, List.isEmpty_iff]

theorem verify_results_is_correct_iff_witness :
    ({ is_complete := true, is_correct := true,
       confidence_score := PyVal.num (mkRat 1 2), issues := [],
       formatted_output := PyVal.str (format_for_display er_empty_list),
       summary := PyVal.str fallback_summary,
       recommendations := PyVal.list [] } : VerificationResult).is_correct = true ↔
      (({ is_complete := true, is_correct := true,
          confidence_score := PyVal.num (mkRat 1 2), issues := [],
          formatted_output := PyVal.str (format_for_display er_empty_list),
          summary := PyVal.str fallback_summary,
          recommendations := PyVal.list [] } : VerificationResult).issues = [] ∧
        er_empty_list.success = true) :=
  verify_results_is_correct_iff plan_one_step er_empty_list (.error "llm down") _ (by rfl)

/-! ## Claim C8: fallback values after an LLM failure (corrected) -/

/-- Counterexample to C8 as stated: on an LLM failure the fallback
summary is the string
`"Verification completed with basic formatting (LLM unavailable)"`,
which differs from the claim's exact
`"Verification completed with basic formatting"`. -/
theorem verify_fallback_summary_counterexample :
    (verify_results plan_one_step er_empty_list (.error "gateway down")).toOption.map
        VerificationResult.summary = some (.str fallback_summary) ∧
      PyVal.str fallback_summary ≠
        PyVal.str "Verification completed with basic formatting" := by
  constructor
  · rfl
  · simp [fallback_summary]

/-- C8 (amended): whenever the verifier's LLM quality pass fails,
`verify_results` still returns normally (unless the anomaly scan itself
raised) and its result carries exactly the fallback values:
`formatted_output` from the deterministic formatter,
`summary = "Verification completed with basic formatting (LLM
unavailable)"`, `confidence_score = 0.5` and `recommendations = []`. -/
theorem verify_fallback_values (plan : PlanT) (er : ExecutionResult) (e : String)
    (v : VerificationResult) (h : verify_results plan er (.error e) = .ok v) :
    v.formatted_output = .str (format_for_display er) ∧
    v.summary = .str fallback_summary ∧
    v.confidence_score = .num (mkRat 1 2) ∧
    v.recommendations = .list [] := by
  unfold verify_results at h
  cases hc : check_for_anomalies er with
  | error e2 =>
    rw [hc] at h
    simp [Bind.bind, Except.bind] at h
  | ok anoms =>
    rw [hc] at h
    simp only [Bind.bind, Except.bind, Except.ok.injEq] at h
    subst h
    simp [llm_branch]

theorem verify_fallback_values_witness :
    ({ is_complete := true, is_correct := true,
       confidence_score := PyVal.num (mkRat 1 2), issues := [],
       formatted_output := PyVal.str (format_for_display er_empty_list),
       summary := PyVal.str fallback_summary,
       recommendations := PyVal.list [] } : VerificationResult).formatted_output =
        .str (format_for_display er_empty_list) ∧
    ({ is_complete := true, is_correct := true,
       confidence_score := PyVal.num (mkRat 1 2), issues := [],
       formatted_output := PyVal.str (format_for_display er_empty_list),
       summary := PyVal.str fallback_summary,
       recommendations := PyVal.list [] } : VerificationResult).summary =
        .str fallback_summary ∧
    ({ is_complete := true, is_correct := true,
       confidence_score := PyVal.num (mkRat 1 2), issues := [],
       formatted_output := PyVal.str (format_for_display er_empty_list),
       summary := PyVal.str fallback_summary,
       recommendations := PyVal.list [] } : VerificationResult).confidence_score =
        .num (mkRat 1 2) ∧
    ({ is_complete := true, is_correct := true,
       confidence_score := PyVal.num (mkRat 1 2), issues := [],
       formatted_output := PyVal.str (format_for_display er_empty_list),
       summary := PyVal.str fallback_summary,
       recommendations := PyVal.list [] } : VerificationResult).recommendations =
        .list [] :=
  verify_fallback_values plan_one_step er_empty_list "boom" _ (by rfl)

/-! ## Claim C9: gateway retry exhaustion and backoff -/

theorem gen_aux_typed_exhaustion (oracle : Nat → Except GwError String)
    (err : Nat → GwError) (n : Nat) :
    ∀ (r a : Nat) (last : Option GwError),
      (∀ i, i < r → oracle (a + i) = .error (err (a + i))) →
      (∀ i, i < r → typedClass (err (a + i)) = some true) →
      gen_aux "openai" true n oracle a r last =
        (.exhausted (if r = 0 then last else some (err (a + r - 1))),
         (List.range r).map (fun i => calculate_backoff (a + i))) := by
  intro r
  induction r with
  | zero =>
    intro a last _ _
    simp [gen_aux]
  | succ r ih =>
    intro a last ho ht
    have h0 : oracle a = .error (err a) := by simpa using ho 0 (Nat.succ_pos r)
    have t0 : typedClass (err a) = some true := by simpa using ht 0 (Nat.succ_pos r)
    have ho' : ∀ i, i < r → oracle (a + 1 + i) = .error (err (a + 1 + i)) := by
      intro i hi
      have := ho (i + 1) (Nat.succ_lt_succ hi)
      simpa [Nat.add_assoc, Nat.add_comm 1 i] using this
    have ht' : ∀ i, i < r → typedClass (err (a + 1 + i)) = some true := by
      intro i hi
      have := ht (i + 1) (Nat.succ_lt_succ hi)
      simpa [Nat.add_assoc, Nat.add_comm 1 i] using this
    rw [gen_aux, h0]
    simp only [t0, ih (a + 1) (some (err a)) ho' ht']
    refine Prod.ext ?_ ?_
    · show GenOutcome.exhausted _ = GenOutcome.exhausted _
      congr 1
      cases r with
      | zero => simp
      | succ s =>
        have h1 : a + 1 + (s + 1) - 1 = a + (s + 1 + 1) - 1 := by omega
        simp [h1]
    · show calculate_backoff a :: _ = _
      simp only [List.range_succ_eq_map, List.map_cons, List.map_map, Nat.add_zero]
      refine congrArg (List.cons (calculate_backoff a)) ?_
      apply List.map_congr_left
      intro i hi
      show calculate_backoff (a + 1 + i) = calculate_backoff (a + (i + 1))
      congr 1
      omega

/-- C9: when every attempt of an LLM Gateway call fails with a transient
provider error — in the spec's sense of the typed provider categories:
rate limit, connection error, or 5xx server error — and the configured
maximum attempt count is exhausted, `generate_completion` raises the
single terminal `Exception("Failed after … attempts. Last error: …")`
carrying the last underlying error, rather than re-raising the
underlying error or returning, and the backoff slept before each retry
of attempt `i` is `min(2 ** i, 60)` seconds (`calculate_backoff`). -/
theorem gateway_typed_transient_exhaustion (n : Nat)
    (oracle : Nat → Except GwError String) (err : Nat → GwError)
    (hn : 0 < n)
    (ho : ∀ i, i < n → oracle i = .error (err i))
    (ht : ∀ i, i < n → typedClass (err i) = some true) :
    generate_completion "openai" true n oracle =
      (.exhausted (some (err (n - 1))), (List.range n).map calculate_backoff) := by
  have h := gen_aux_typed_exhaustion oracle err n n 0 Option.none
    (by simpa using ho) (by simpa using ht)
  rw [generate_completion, h]
  refine Prod.ext ?_ ?_
  · show GenOutcome.exhausted _ = GenOutcome.exhausted _
    congr 1
    rw [if_neg (Nat.pos_iff_ne_zero.mp hn)]
    congr 2
    omega
  · simp

/-- Provider-call oracle that hits the rate limit on every attempt. -/
def gwOracle : Nat → Except GwError String := fun _ => .error (.rateLimit "rate limit")

theorem gateway_typed_transient_exhaustion_witness :
    generate_completion "openai" true 3 gwOracle =
      (.exhausted (some (.rateLimit "rate limit")), [1, 2, 4]) := by
  have h := gateway_typed_transient_exhaustion 3 gwOracle
    (fun _ => .rateLimit "rate limit") (by decide) (fun i _ => rfl) (fun i _ => rfl)
  rw [h]
  rfl

end AiOps
